import Mathlib

/-!
Shallow embedding of the ViGem Phone-to-PC controller relay core
(`host.py`: motion accumulator, keyboard/mouse mapper, request dispatcher,
session loop; `app.py`: relay client RPC machinery).

Python floats are modelled as exact rationals (`ℚ`); Python ints as `ℤ`/`Nat`.
Injected OS-level side effects (pynput key/mouse calls) are reified as an
`Action` trace; the virtual Xbox controller (vgamepad) is modelled as explicit
device state.  Threads are flattened into explicit interleavings: the
accumulator's flush loop becomes a `flush` step interleaved with `add` calls,
and the blocking RPC wait becomes an oracle describing what the environment
did during the wait.
-/

namespace ViGemRelay

/-! ### Keys, buttons and injected device actions -/

/-- Keyboard keys as passed to pynput: either a one-character string or a
special `keyboard.Key.*` member (`host.py` `_handle_key`). -/
inductive Key where
  | char (c : Char)
  | enter | backspace | tab | esc | space
  | up | down | left | right
  | shift | ctrl | alt | cmd
  deriving DecidableEq, Repr

/-- pynput mouse buttons. -/
inductive MButton where
  | left | right | middle
  deriving DecidableEq, Repr

/-- Virtual Xbox-360 controller buttons (`XUSB_GAMEPAD_*`). -/
inductive PadButton where
  | a | b | x | y | lb | rb | back | start | ls | rs
  | dup | ddown | dleft | dright
  deriving DecidableEq, Repr

/-- One OS-level injection performed through pynput
(`keyboard_controller` / `mouse_controller`). -/
inductive Action where
  | keyPress (k : Key)
  | keyRelease (k : Key)
  | mouseDown (b : MButton)
  | mouseUp (b : MButton)
  | mouseMove (dx dy : ℤ)
  | scroll (amount : ℤ)
  | typeText (text : String)
  deriving DecidableEq, Repr

/-- `selected_window` entries (`_foreground_window_info`). -/
structure WindowInfo where
  hwnd : ℤ
  pid : ℤ
  title : String
  deriving DecidableEq, Repr

/-- The environment/configuration of `host.py`: which pynput backends
imported successfully (`mouse`, `keyboard` and the derived controllers are
all truthy exactly when the import worked), whether vgamepad/ViGEmBus is
usable, the `Settings` values read from the environment, and the window the
OS reports as foreground (`user32.GetForegroundWindow`). -/
structure Cfg where
  hasMouse : Bool
  hasKeyboard : Bool
  vigemAvailable : Bool
  mouseSensitivity : ℚ
  joystickSensitivity : ℚ
  maxMovePx : ℤ
  maxScroll : ℤ
  kbmCamSens : ℚ
  foreground : WindowInfo
  deriving DecidableEq, Repr

/-! ### Motion accumulator (`MouseMover`, host.py lines 155-188) -/

/-- `max(lo, min(hi, v))`. -/
def clampQ (lo hi v : ℚ) : ℚ := max lo (min hi v)

/-- `int(math.floor(v)) if v >= 0 else int(math.ceil(v))`: truncation toward
zero as performed in `MouseMover._loop`. -/
def truncQ (v : ℚ) : ℤ := if 0 ≤ v then ⌊v⌋ else ⌈v⌉

/-- The accumulator's two fractional remainders (`self._dx`, `self._dy`). -/
structure MouseMover where
  dx : ℚ
  dy : ℚ
  deriving DecidableEq, Repr

/-- `MouseMover.add`: accumulate a relative-motion sample. -/
def MouseMover.add (m : MouseMover) (dx dy : ℚ) : MouseMover :=
  ⟨m.dx + dx, m.dy + dy⟩

/-- One axis of a flush tick of `MouseMover._loop`: clamp the stored
remainder to `±max_move_px`, truncate toward zero to get the whole-pixel
part, and subtract that part from the stored remainder. -/
def flushAxis (M : ℤ) (v : ℚ) : ℤ × ℚ :=
  let c := clampQ (-(M : ℚ)) (M : ℚ) v
  let mi := truncQ c
  (mi, v - (mi : ℚ))

/-- One iteration of `MouseMover._loop` (a flush tick): returns the injected
`(mx, my)` passed to `mouse_controller.move` (a move is issued only when one
of them is non-zero; injecting `(0,0)` is equivalent for the motion totals)
together with the new stored remainders. -/
def MouseMover.flush (M : ℤ) (m : MouseMover) : (ℤ × ℤ) × MouseMover :=
  (((flushAxis M m.dx).1, (flushAxis M m.dy).1),
   ⟨(flushAxis M m.dx).2, (flushAxis M m.dy).2⟩)

/-- A sequential interleaving of `add` calls and flush ticks. -/
inductive MoverOp where
  | add (dx dy : ℚ)
  | flush
  deriving DecidableEq, Repr

/-- Run an interleaving, returning the final accumulator state and the sums
of all injected integer deltas per axis. -/
def moverRun (M : ℤ) : MouseMover → List MoverOp → MouseMover × ℤ × ℤ
  | m, [] => (m, 0, 0)
  | m, MoverOp.add dx dy :: ops => moverRun M (m.add dx dy) ops
  | m, MoverOp.flush :: ops =>
      let f := m.flush M
      let r := moverRun M f.2 ops
      (r.1, f.1.1 + r.2.1, f.1.2 + r.2.2)

/-- Sum of all added x-deltas in an interleaving. -/
def sumAddX : List MoverOp → ℚ
  | [] => 0
  | MoverOp.add dx _ :: ops => dx + sumAddX ops
  | MoverOp.flush :: ops => sumAddX ops

/-- Sum of all added y-deltas in an interleaving. -/
def sumAddY : List MoverOp → ℚ
  | [] => 0
  | MoverOp.add _ dy :: ops => dy + sumAddY ops
  | MoverOp.flush :: ops => sumAddY ops

/-! ### Virtual Xbox controller (`GamepadAdapter`, host.py lines 62-145)

The vgamepad `VX360Gamepad` device is modelled by its externally visible
report state: held buttons, stick axes and trigger values. -/

structure GamepadState where
  ready : Bool
  err : Option String
  buttons : List PadButton
  lx : ℚ
  ly : ℚ
  rx : ℚ
  ry : ℚ
  lt : ℚ
  rt : ℚ
  deriving DecidableEq, Repr

/-- `GamepadAdapter.__init__(enabled)`: a fresh neutral device, ready only
when construction was requested and vgamepad/ViGEmBus is usable. -/
def GamepadAdapter.init (enabled : Bool) (cfg : Cfg) : GamepadState :=
  if !enabled then ⟨false, some "disabled", [], 0, 0, 0, 0, 0, 0⟩
  else if cfg.vigemAvailable then ⟨true, none, [], 0, 0, 0, 0, 0, 0⟩
  else ⟨false, some "vgamepad_unavailable", [], 0, 0, 0, 0, 0, 0⟩

/-- `GamepadAdapter.set_left_stick`. -/
def GamepadState.setLeftStick (cfg : Cfg) (g : GamepadState) (x y : ℚ) : GamepadState :=
  if !g.ready then g
  else { g with lx := clampQ (-1) 1 (x * cfg.joystickSensitivity),
                ly := clampQ (-1) 1 (y * cfg.joystickSensitivity) }

/-- `GamepadAdapter.set_right_stick`. -/
def GamepadState.setRightStick (cfg : Cfg) (g : GamepadState) (x y : ℚ) : GamepadState :=
  if !g.ready then g
  else { g with rx := clampQ (-1) 1 (x * cfg.joystickSensitivity),
                ry := clampQ (-1) 1 (y * cfg.joystickSensitivity) }

/-- `GamepadAdapter.set_trigger`. -/
def GamepadState.setTrigger (g : GamepadState) (which : String) (value : ℚ) : GamepadState :=
  if !g.ready then g
  else
    let v := clampQ 0 1 value
    if which = "lt" then { g with lt := v }
    else if which = "rt" then { g with rt := v }
    else g

/-- The `name → XUSB_BUTTON` table in `GamepadAdapter.set_button`. -/
def padButtonOf (name : String) : Option PadButton :=
  if name = "a" then some PadButton.a
  else if name = "b" then some PadButton.b
  else if name = "x" then some PadButton.x
  else if name = "y" then some PadButton.y
  else if name = "lb" then some PadButton.lb
  else if name = "rb" then some PadButton.rb
  else if name = "back" then some PadButton.back
  else if name = "start" then some PadButton.start
  else if name = "ls" then some PadButton.ls
  else if name = "rs" then some PadButton.rs
  else if name = "dup" then some PadButton.dup
  else if name = "ddown" then some PadButton.ddown
  else if name = "dleft" then some PadButton.dleft
  else if name = "dright" then some PadButton.dright
  else none

/-- `GamepadAdapter.set_button`: press (idempotent) or release a button. -/
def GamepadState.setButton (g : GamepadState) (name : String) (pressed : Bool) : GamepadState :=
  if !g.ready then g
  else
    match padButtonOf name with
    | none => g
    | some btn =>
        if pressed then
          { g with buttons := if btn ∈ g.buttons then g.buttons else btn :: g.buttons }
        else
          { g with buttons := g.buttons.erase btn }

/-- `pad.reset(); pad.update()`: neutralise the report without destroying
the device. -/
def GamepadState.reset (g : GamepadState) : GamepadState :=
  { g with buttons := [], lx := 0, ly := 0, rx := 0, ry := 0, lt := 0, rt := 0 }

/-! ### Keyboard/mouse mapper (`KbmMapper`, host.py lines 226-413) -/

/-- The mapper's mutable state: four movement toggles, the two mouse-button
toggles, the left-trigger latch, the camera-hold and camera-drag flags, the
(dead) modifier trackers, and the stored right-stick axes. -/
structure KbmMapper where
  w : Bool
  a : Bool
  s : Bool
  d : Bool
  lmb : Bool
  rmb : Bool
  rmbTrigger : Bool
  cameraActive : Bool
  cameraDrag : Bool
  shift : Bool
  ctrl : Bool
  rightX : ℚ
  rightY : ℚ
  deriving DecidableEq, Repr

/-- `KbmMapper.__init__`. -/
def KbmMapper.init : KbmMapper :=
  ⟨false, false, false, false, false, false, false, false, false, false, false, 0, 0⟩

/-- `KbmMapper._press` (guards on `keyboard_controller`). -/
def kbPress (cfg : Cfg) (k : Key) : List Action :=
  if cfg.hasKeyboard then [Action.keyPress k] else []

/-- `KbmMapper._release` (guards on `keyboard_controller`). -/
def kbRelease (cfg : Cfg) (k : Key) : List Action :=
  if cfg.hasKeyboard then [Action.keyRelease k] else []

/-- `KbmMapper._update_rmb`: recompute the right-mouse-button composite
`want = rmb_trigger or (camera_active and camera_drag)` and edge-trigger
the actual button on the composite's value. -/
def KbmMapper.updateRmb (cfg : Cfg) (k : KbmMapper) : KbmMapper × List Action :=
  if !cfg.hasMouse then (k, [])
  else
    let want := k.rmbTrigger || (k.cameraActive && k.cameraDrag)
    if want && !k.rmb then ({ k with rmb := true }, [Action.mouseDown MButton.right])
    else if !want && k.rmb then ({ k with rmb := false }, [Action.mouseUp MButton.right])
    else (k, [])

/-- The deadzone applied in `KbmMapper.set_left_stick`:
`v = 0.0 if abs(v) < 0.18 else v`. -/
def deadzoned (v : ℚ) : ℚ := if |v| < 18 / 100 then 0 else v

/-- The inner `flip` closure of `KbmMapper.set_left_stick`: edge-triggered
press/release of one movement key. -/
def flip (cfg : Cfg) (state want : Bool) (key : Key) : Bool × List Action :=
  if want && !state then (true, kbPress cfg key)
  else if !want && state then (false, kbRelease cfg key)
  else (state, [])

/-- `KbmMapper.set_left_stick`: WASD mapping with deadzone 0.18 and
threshold 0.35, flipping the four toggles in source order w, s, a, d. -/
def KbmMapper.setLeftStick (cfg : Cfg) (k : KbmMapper) (x y : ℚ) : KbmMapper × List Action :=
  let x := deadzoned x
  let y := deadzoned y
  let wantW := decide (y > 35 / 100)
  let wantS := decide (y < -(35 / 100))
  let wantD := decide (x > 35 / 100)
  let wantA := decide (x < -(35 / 100))
  let fw := flip cfg k.w wantW (Key.char 'w')
  let fs := flip cfg k.s wantS (Key.char 's')
  let fa := flip cfg k.a wantA (Key.char 'a')
  let fd := flip cfg k.d wantD (Key.char 'd')
  ({ k with w := fw.1, s := fs.1, a := fa.1, d := fd.1 },
   fw.2 ++ fs.2 ++ fa.2 ++ fd.2)

/-- `KbmMapper.set_right_stick`: store the latest right-stick axes. -/
def KbmMapper.setRightStick (k : KbmMapper) (x y : ℚ) : KbmMapper :=
  { k with rightX := x, rightY := y }

/-- `KbmMapper.camera_move`: scale by `kbm_cam_sens` and feed the motion
accumulator (no-op without a mouse backend). -/
def KbmMapper.cameraMove (cfg : Cfg) (mover : MouseMover) (dx dy : ℚ) : MouseMover :=
  if !cfg.hasMouse then mover
  else mover.add (dx * cfg.kbmCamSens) (dy * cfg.kbmCamSens)

/-- `KbmMapper.set_camera_active`: record the camera-hold flag from
`kbm_cam_hold` and re-evaluate the right-mouse-button composite. -/
def KbmMapper.setCameraActive (cfg : Cfg) (k : KbmMapper) (active : Bool) : KbmMapper × List Action :=
  KbmMapper.updateRmb cfg { k with cameraActive := active }

/-- `KbmMapper.set_trigger`: RT (> 0.5) edge-triggers the left mouse
button; LT (> 0.5) sets the latch and re-evaluates the composite. -/
def KbmMapper.setTrigger (cfg : Cfg) (k : KbmMapper) (which : String) (value : ℚ) : KbmMapper × List Action :=
  let down := decide (value > 1 / 2)
  if !cfg.hasMouse then (k, [])
  else if which = "rt" then
    if down && !k.lmb then ({ k with lmb := true }, [Action.mouseDown MButton.left])
    else if !down && k.lmb then ({ k with lmb := false }, [Action.mouseUp MButton.left])
    else (k, [])
  else if which = "lt" then
    KbmMapper.updateRmb cfg { k with rmbTrigger := down }
  else (k, [])

/-- The `name → key string` table in `KbmMapper.set_button`. -/
def buttonKeyName (name : String) : Option String :=
  if name = "a" then some "space"
  else if name = "b" then some "c"
  else if name = "x" then some "r"
  else if name = "y" then some "e"
  else if name = "back" then some "esc"
  else if name = "start" then some "enter"
  else if name = "dup" then some "up"
  else if name = "ddown" then some "down"
  else if name = "dleft" then some "left"
  else if name = "dright" then some "right"
  else none

/-- `_handle_key`: special-name table, then one-character strings; `None`
when the keyboard backend is absent or the name is unknown. -/
def handleKey (cfg : Cfg) (name : String) : Option Key :=
  if !cfg.hasKeyboard then none
  else if name = "enter" then some Key.enter
  else if name = "backspace" then some Key.backspace
  else if name = "tab" then some Key.tab
  else if name = "esc" then some Key.esc
  else if name = "space" then some Key.space
  else if name = "up" then some Key.up
  else if name = "down" then some Key.down
  else if name = "left" then some Key.left
  else if name = "right" then some Key.right
  else if name = "shift" then some Key.shift
  else if name = "ctrl" then some Key.ctrl
  else if name = "alt" then some Key.alt
  else if name = "cmd" then some Key.cmd
  else match name.toList with
       | [c] => some (Key.char c)
       | _ => none

/-- `KbmMapper.set_button`: shoulder buttons press/release modifiers (note:
without recording them in `shift`/`ctrl`); other buttons map through the
fixed table and `_handle_key`.  The mapper state is never updated here. -/
def KbmMapper.setButton (cfg : Cfg) (k : KbmMapper) (name : String) (pressed : Bool) : KbmMapper × List Action :=
  if name = "lb" ∨ name = "rb" then
    if !cfg.hasKeyboard then (k, [])
    else
      let keyObj := if name = "lb" then Key.shift else Key.ctrl
      (k, if pressed then kbPress cfg keyObj else kbRelease cfg keyObj)
  else
    match buttonKeyName name with
    | none => (k, [])
    | some keyname =>
        match handleKey cfg keyname with
        | none => (k, [])
        | some keyObj =>
            (k, if pressed then kbPress cfg keyObj else kbRelease cfg keyObj)

/-- `KbmMapper.release_all`: release held movement keys and mouse buttons,
clear the toggles and latches, re-evaluate the composite, release the
(never-set) modifier trackers, and zero the stored camera axes. -/
def KbmMapper.releaseAll (cfg : Cfg) (k : KbmMapper) : KbmMapper × List Action :=
  let movActs :=
    (if k.w then kbRelease cfg (Key.char 'w') else []) ++
    (if k.a then kbRelease cfg (Key.char 'a') else []) ++
    (if k.s then kbRelease cfg (Key.char 's') else []) ++
    (if k.d then kbRelease cfg (Key.char 'd') else [])
  let k1 := { k with w := false, a := false, s := false, d := false }
  let lmbActs := if cfg.hasMouse && k1.lmb then [Action.mouseUp MButton.left] else []
  let k2 := { k1 with rmbTrigger := false, cameraActive := false }
  let ur := KbmMapper.updateRmb cfg k2
  let k3 := { ur.1 with lmb := false, rmb := false }
  let shiftActs := if cfg.hasKeyboard && k3.shift then [Action.keyRelease Key.shift] else []
  let ctrlActs := if cfg.hasKeyboard && k3.ctrl then [Action.keyRelease Key.ctrl] else []
  let k4 := { k3 with shift := false, ctrl := false, rightX := 0, rightY := 0 }
  (k4, movActs ++ lmbActs ++ ur.2 ++ shiftActs ++ ctrlActs)

/-! ### Host process state, dispatcher and input router (host.py 459-839) -/

/-- The module-level mutable state of `host.py` relevant to one session:
`armed`/`current_client` from `serve_forever`, the globals `input_mode`,
`gamepad_enabled`, `gamepad`, `kbm`, `mouse_mover`, `selected_window`,
`focus_lock_enabled` and `kbm_camera_drag_enabled`. -/
structure HostState where
  armed : Bool
  currentClient : Option String
  inputMode : Nat
  gamepadEnabled : Bool
  gamepad : GamepadState
  kbm : KbmMapper
  mover : MouseMover
  selectedWindow : WindowInfo
  focusLock : Bool
  kbmCameraDragEnabled : Bool
  deriving DecidableEq, Repr

/-- `_status_snapshot()`. -/
structure StatusSnapshot where
  mouse : Bool
  keyboard : Bool
  gamepad : Bool
  gamepadEnabled : Bool
  inputMode : Nat
  kbmCameraDrag : Bool
  gamepadError : Option String
  selectedWindow : WindowInfo
  focusLock : Bool
  deriving DecidableEq, Repr

/-- Build the status snapshot from the current host state. -/
def statusSnapshot (cfg : Cfg) (s : HostState) : StatusSnapshot :=
  ⟨cfg.hasMouse, cfg.hasKeyboard, s.gamepad.ready, s.gamepadEnabled, s.inputMode,
   s.kbmCameraDragEnabled, s.gamepad.err, s.selectedWindow, s.focusLock⟩

/-- `_set_gamepad_enabled(enabled)`: idempotent no-op at the requested
value; disabling releases the mapper (in mode 1) and neutralises the
virtual device; enabling recreates the device in mode 0. -/
def setGamepadEnabled (cfg : Cfg) (s : HostState) (enabled : Bool) : HostState × List Action :=
  if enabled = s.gamepadEnabled then (s, [])
  else if !enabled then
    let s1 := { s with gamepadEnabled := false }
    let r :=
      if s1.inputMode = 1 then
        let q := s1.kbm.releaseAll cfg
        ({ s1 with kbm := q.1 }, q.2)
      else (s1, [])
    let s2 := if r.1.gamepad.ready then { r.1 with gamepad := r.1.gamepad.reset } else r.1
    (s2, r.2)
  else
    let s1 := { s with gamepadEnabled := true }
    if s1.inputMode = 0 then ({ s1 with gamepad := GamepadAdapter.init true cfg }, [])
    else (s1, [])

/-- The reply of `_handle_rpc`: either a status snapshot (a dict with no
`"error"` key) or an error dict such as `{"error": "unknown_method"}`. -/
inductive RpcReply where
  | snap (st : StatusSnapshot)
  | err (e : String)
  deriving DecidableEq, Repr

/-- `ok = "error" not in result` as computed in `serve_forever`. -/
def replyOk : RpcReply → Bool
  | RpcReply.snap _ => true
  | RpcReply.err _ => false

/-- The parameters read by `_handle_rpc` out of the `p` dict:
`params.get("mode", 0)` and `params.get("enabled", False)`. -/
structure Params where
  mode : ℤ
  enabled : Bool
  deriving DecidableEq, Repr

/-- `_handle_rpc(method, params)`: the request dispatcher. -/
def handleRpc (cfg : Cfg) (s : HostState) (method : String) (p : Params) :
    HostState × List Action × RpcReply :=
  if method = "select_foreground_window" then
    let s1 := { s with selectedWindow := cfg.foreground }
    if s1.selectedWindow.hwnd ≠ 0 then
      let s2 := { s1 with focusLock := true }
      let r := setGamepadEnabled cfg s2 true
      (r.1, r.2, RpcReply.snap (statusSnapshot cfg r.1))
    else (s1, [], RpcReply.snap (statusSnapshot cfg s1))
  else if method = "get_selected_window" then
    (s, [], RpcReply.snap (statusSnapshot cfg s))
  else if method = "set_focus_lock" then
    let s1 := { s with focusLock := p.enabled }
    if p.enabled ∧ s1.selectedWindow.hwnd ≠ 0 then
      let r := setGamepadEnabled cfg s1 true
      (r.1, r.2, RpcReply.snap (statusSnapshot cfg r.1))
    else (s1, [], RpcReply.snap (statusSnapshot cfg s1))
  else if method = "set_gamepad_enabled" then
    let r := setGamepadEnabled cfg s p.enabled
    (r.1, r.2, RpcReply.snap (statusSnapshot cfg r.1))
  else if method = "set_input_mode" then
    let newMode : Nat := if p.mode = 0 then 0 else 1
    if newMode ≠ s.inputMode then
      if newMode = 0 then
        let s1 := { s with inputMode := 0 }
        let s2 := if s1.gamepadEnabled then { s1 with gamepad := GamepadAdapter.init true cfg } else s1
        (s2, [], RpcReply.snap (statusSnapshot cfg s2))
      else
        let s1 := { s with inputMode := 1 }
        let q := s1.kbm.releaseAll cfg
        let s2 := { s1 with gamepad := GamepadAdapter.init false cfg, kbm := q.1 }
        (s2, q.2, RpcReply.snap (statusSnapshot cfg s2))
    else (s, [], RpcReply.snap (statusSnapshot cfg s))
  else if method = "set_kbm_camera_drag" then
    let s1 := { s with kbmCameraDragEnabled := p.enabled,
                       kbm := { s.kbm with cameraDrag := p.enabled } }
    (s1, [], RpcReply.snap (statusSnapshot cfg s1))
  else if method = "pad_reset" then
    if !s.gamepadEnabled then (s, [], RpcReply.snap (statusSnapshot cfg s))
    else if s.inputMode = 0 then
      let s1 := { s with gamepad := GamepadAdapter.init true cfg }
      (s1, [], RpcReply.snap (statusSnapshot cfg s1))
    else (s, [], RpcReply.snap (statusSnapshot cfg s))
  else if method = "gamepad_status" then
    (s, [], RpcReply.snap (statusSnapshot cfg s))
  else (s, [], RpcReply.err "unknown_method")

/-- The normalised events of `_handle_input`, with the payload fields each
branch reads out of the `d` dict (missing fields already defaulted as in
the source: `float(d.get(..) or 0.0)`, `bool(d.get("down", True))`, ...). -/
inductive InputEvent where
  | move (dx dy : ℚ)
  | scroll (dy : ℚ)
  | click (button : String) (down : Bool)
  | typeText (text : String)
  | key (name : String) (down : Bool)
  | padLeft (x y : ℚ)
  | padRight (x y : ℚ)
  | padTrigger (which : String) (value : ℚ)
  | padButton (name : String) (down : Bool)
  | kbmCamMove (dx dy : ℚ)
  | kbmCamHold (down : Bool)
  deriving DecidableEq, Repr

/-- `_handle_input(event, data)`: the input router.  `_maybe_refocus` is a
rate-limited best-effort window-focus call that touches no device or mapper
state; its wall-clock behaviour is outside this embedding. -/
def handleInput (cfg : Cfg) (s : HostState) (e : InputEvent) : HostState × List Action :=
  match e with
  | InputEvent.move dx dy =>
      if cfg.hasMouse then
        ({ s with mover := s.mover.add (dx * cfg.mouseSensitivity) (dy * cfg.mouseSensitivity) }, [])
      else (s, [])
  | InputEvent.scroll dy =>
      if cfg.hasMouse then
        let dyC := clampQ (-(cfg.maxScroll : ℚ)) (cfg.maxScroll : ℚ) dy
        (s, [Action.scroll (truncQ dyC)])
      else (s, [])
  | InputEvent.click button down =>
      if cfg.hasMouse then
        let btn := if button = "right" then MButton.right
                   else if button = "middle" then MButton.middle
                   else MButton.left
        (s, [if down then Action.mouseDown btn else Action.mouseUp btn])
      else (s, [])
  | InputEvent.typeText text =>
      if cfg.hasKeyboard && text ≠ "" then (s, [Action.typeText text]) else (s, [])
  | InputEvent.key name down =>
      if cfg.hasKeyboard then
        match handleKey cfg name with
        | none => (s, [])
        | some k => (s, [if down then Action.keyPress k else Action.keyRelease k])
      else (s, [])
  | InputEvent.padLeft x y =>
      if !s.gamepadEnabled then (s, [])
      else if s.inputMode = 0 then
        ({ s with gamepad := s.gamepad.setLeftStick cfg x y }, [])
      else
        let r := s.kbm.setLeftStick cfg x y
        ({ s with kbm := r.1 }, r.2)
  | InputEvent.padRight x y =>
      if !s.gamepadEnabled then (s, [])
      else if s.inputMode = 0 then
        ({ s with gamepad := s.gamepad.setRightStick cfg x y }, [])
      else ({ s with kbm := s.kbm.setRightStick x y }, [])
  | InputEvent.padTrigger which value =>
      if !s.gamepadEnabled then (s, [])
      else if s.inputMode = 0 then
        ({ s with gamepad := s.gamepad.setTrigger which value }, [])
      else
        let r := s.kbm.setTrigger cfg which value
        ({ s with kbm := r.1 }, r.2)
  | InputEvent.padButton name down =>
      if !s.gamepadEnabled then (s, [])
      else if s.inputMode = 0 then
        ({ s with gamepad := s.gamepad.setButton name down }, [])
      else
        let r := s.kbm.setButton cfg name down
        ({ s with kbm := r.1 }, r.2)
  | InputEvent.kbmCamMove dx dy =>
      if !s.gamepadEnabled || s.inputMode ≠ 1 then (s, [])
      else
        let dxC := clampQ (-120) 120 dx
        let dyC := clampQ (-120) 120 dy
        ({ s with mover := KbmMapper.cameraMove cfg s.mover dxC dyC }, [])
  | InputEvent.kbmCamHold down =>
      if !s.gamepadEnabled || s.inputMode ≠ 1 then (s, [])
      else
        let r := s.kbm.setCameraActive cfg down
        ({ s with kbm := r.1 }, r.2)

/-- One parsed inbound frame of the session loop in `serve_forever`
(non-dict lines and unknown tags fall through to the next iteration). -/
inductive Frame where
  | hello
  | rpc (id : String) (method : String) (p : Params)
  | client (state : String) (meta : Option String)
  | input (e : InputEvent)
  | other
  deriving DecidableEq, Repr

/-- A line written back to the relay connection. -/
inductive OutMsg where
  | status (st : StatusSnapshot)
  | rpcResult (id : String) (ok : Bool) (error : Option String)
  deriving DecidableEq, Repr

/-- The per-frame body of the session loop in `serve_forever`
(host.py lines 795-832). -/
def handleFrame (cfg : Cfg) (s : HostState) (fr : Frame) :
    HostState × List Action × List OutMsg :=
  match fr with
  | Frame.hello => (s, [], [OutMsg.status (statusSnapshot cfg s)])
  | Frame.rpc id method p =>
      let r := handleRpc cfg s method p
      let e := match r.2.2 with
               | RpcReply.snap _ => none
               | RpcReply.err msg => some msg
      (r.1, r.2.1, [OutMsg.rpcResult id (replyOk r.2.2) e])
  | Frame.client st meta =>
      if st = "connected" then
        ({ s with currentClient := meta, armed := true }, [], [])
      else if st = "disconnected" then
        let r := s.kbm.releaseAll cfg
        ({ s with armed := false, kbm := r.1 }, r.2, [])
      else (s, [], [])
  | Frame.input e =>
      if !s.armed then (s, [], [])
      else
        let r := handleInput cfg s e
        (r.1, r.2, [])
  | Frame.other => (s, [], [])

/-- The `finally` block of the session loop (host.py lines 835-839),
reached on connection teardown including the exception path:
`armed = False; current_client = {}; kbm.release_all()`. -/
def teardown (cfg : Cfg) (s : HostState) : HostState × List Action :=
  let r := s.kbm.releaseAll cfg
  ({ s with armed := false, currentClient := none, kbm := r.1 }, r.2)

/-! ### Relay client (`RelayClient`, app.py lines 50-208) -/

/-- `self.capabilities`. -/
structure Capabilities where
  mouse : Bool
  keyboard : Bool
  gamepad : Bool
  deriving DecidableEq, Repr

/-- An `rpc_result` message as stored into a pending request's box. -/
structure RpcResultMsg where
  id : String
  ok : Bool
  error : Option String
  result : Option StatusSnapshot
  deriving DecidableEq, Repr

/-- A message received from the host relay (`_handle_incoming` only acts
on `status` and `rpc_result` tags). -/
inductive HostMsg where
  | status (st : StatusSnapshot)
  | rpcResult (r : RpcResultMsg)
  deriving DecidableEq, Repr

/-- The relay client's shared state: connection flag, the pending-request
table `self._pending` (id ↦ result box, `none` while unfilled), the
monotonically increasing `self._next_id`, and the cached status fields. -/
structure RelayClient where
  connected : Bool
  pending : List (String × Option RpcResultMsg)
  nextId : Nat
  capabilities : Capabilities
  lastStatus : Option StatusSnapshot
  deriving DecidableEq, Repr

/-- `self._pending.pop(req_id, None)`: remove the binding for an id
(dict keys are unique, so filtering all occurrences coincides). -/
def popPending (reqId : String) (l : List (String × Option RpcResultMsg)) :
    List (String × Option RpcResultMsg) :=
  l.filter (fun p => p.1 != reqId)

/-- `RelayClient._handle_incoming`: a `status` message refreshes the cached
status and capabilities; an `rpc_result` fills the matching pending box (and
sets its completion event), or does nothing when no entry matches. -/
def RelayClient.handleIncoming (c : RelayClient) (msg : HostMsg) : RelayClient :=
  match msg with
  | HostMsg.status st =>
      { c with lastStatus := some st,
               capabilities := ⟨st.mouse, st.keyboard, st.gamepad⟩ }
  | HostMsg.rpcResult r =>
      match c.pending.lookup r.id with
      | none => c
      | some _ =>
          { c with pending := c.pending.map (fun p => if p.1 = r.id then (p.1, some r) else p) }

/-- The dict returned by `RelayClient.rpc`. -/
structure RpcResponse where
  ok : Bool
  error : Option String
  result : Option StatusSnapshot
  deriving DecidableEq, Repr

/-- What the environment did while `rpc` held the wire and waited:
the send failed, the wait timed out with no matching result, or a matching
`rpc_result` with the given contents arrived within the timeout. -/
inductive RpcOutcome where
  | sendFailed
  | timeout
  | arrived (ok : Bool) (error : Option String) (result : Option StatusSnapshot)
  deriving DecidableEq, Repr

/-- `RelayClient.rpc(method, params, timeout_s)`.  `params` and the
timeout value only travel to the wire / determine the oracle, so they are
not separate arguments of the model. -/
def RelayClient.rpc (c : RelayClient) (_method : String) (outcome : RpcOutcome) :
    RpcResponse × RelayClient :=
  if !c.connected then (⟨false, some "host_not_connected", none⟩, c)
  else
    let reqId := toString c.nextId
    let c1 : RelayClient :=
      { c with nextId := c.nextId + 1, pending := (reqId, none) :: c.pending }
    match outcome with
    | RpcOutcome.sendFailed =>
        (⟨false, some "send_failed", none⟩, { c1 with pending := popPending reqId c1.pending })
    | RpcOutcome.timeout =>
        (⟨false, some "timeout", none⟩, { c1 with pending := popPending reqId c1.pending })
    | RpcOutcome.arrived ok err res =>
        let c2 := c1.handleIncoming (HostMsg.rpcResult ⟨reqId, ok, err, res⟩)
        let box := match c2.pending.lookup reqId with
                   | some (some r) => some r
                   | _ => none
        let c3 := { c2 with pending := popPending reqId c2.pending }
        (⟨(box.map (fun r => r.ok)).getD false,
          box.bind (fun r => r.error),
          box.bind (fun r => r.result)⟩, c3)

/-! ### Concrete fixtures used to evaluate the model at specific inputs -/

/-- A fully capable environment: pynput and ViGEmBus available, default
`Settings` values. -/
def cfgT : Cfg := ⟨true, true, true, 1, 1, 200, 120, 5, ⟨1, 1, "Game"⟩⟩

/-- A freshly booted host configured with `MEMCTRL_INPUT_MODE=0` and
`MEMCTRL_ENABLE_GAMEPAD=1`: disarmed, ViGEm mode, virtual pad constructed. -/
def hostBoot : HostState :=
  ⟨false, none, 0, true, GamepadAdapter.init true cfgT, KbmMapper.init,
   ⟨0, 0⟩, ⟨0, 0, ""⟩, false, false⟩

/-- A freshly booted host in keyboard/mouse mode (`MEMCTRL_INPUT_MODE=1`). -/
def hostBootKbm : HostState :=
  ⟨false, none, 1, true, GamepadAdapter.init false cfgT, KbmMapper.init,
   ⟨0, 0⟩, ⟨0, 0, ""⟩, false, false⟩

/-- A relay client that has completed its handshake (connected, no pending
requests yet). -/
def clientConnected : RelayClient := ⟨true, [], 1, ⟨true, true, false⟩, none⟩

/-- A relay client whose connection is down. -/
def clientDown : RelayClient := ⟨false, [("7", none)], 9, ⟨true, true, false⟩, none⟩

/-! ### Theorems -/

/-- A flush tick leaves the remainder at "previous value minus flushed
integer part", per axis (this is literally the `self._dx -= mx` step). -/
lemma MouseMover.flush_remainder (M : ℤ) (m : MouseMover) :
    (m.flush M).2.dx = m.dx - (((m.flush M).1.1 : ℤ) : ℚ) ∧
    (m.flush M).2.dy = m.dy - (((m.flush M).1.2 : ℤ) : ℚ) := by
  constructor <;> rfl

/-- Running any interleaving of adds and flushes from any start state:
per axis, injected total plus final remainder equals start remainder plus
added total. -/
lemma moverRun_conserve (M : ℤ) (ops : List MoverOp) :
    ∀ m : MouseMover,
      (((moverRun M m ops).2.1 : ℤ) : ℚ) + (moverRun M m ops).1.dx = m.dx + sumAddX ops ∧
      (((moverRun M m ops).2.2 : ℤ) : ℚ) + (moverRun M m ops).1.dy = m.dy + sumAddY ops := by
  induction ops with
  | nil => intro m; simp [moverRun, sumAddX, sumAddY]
  | cons op ops ih =>
    intro m
    cases op with
    | add dx dy =>
        have h := ih (m.add dx dy)
        constructor
        · have h1 := h.1
          simp only [moverRun, sumAddX, MouseMover.add] at h1 ⊢
          linarith
        · have h2 := h.2
          simp only [moverRun, sumAddY, MouseMover.add] at h2 ⊢
          linarith
    | flush =>
        have h := ih (m.flush M).2
        have hx := (MouseMover.flush_remainder M m).1
        have hy := (MouseMover.flush_remainder M m).2
        constructor
        · have h1 := h.1
          simp only [moverRun, sumAddX] at h1 ⊢
          push_cast at h1 ⊢
          rw [hx] at h1
          linarith
        · have h2 := h.2
          simp only [moverRun, sumAddY] at h2 ⊢
          push_cast at h2 ⊢
          rw [hy] at h2
          linarith

/-- C1: Motion is conserved by the accumulator.  For every sequence of
`add(dx,dy)` calls interleaved with flush ticks of the `MouseMover`, the
sum of all injected discrete integer deltas plus the final stored remainder
equals the sum of all added deltas (per axis); and after each flush the
stored remainder equals the previous stored value minus the flushed integer
part. -/
theorem c1_motion_conserved (M : ℤ) (ops : List MoverOp) :
    ((((moverRun M ⟨0, 0⟩ ops).2.1 : ℤ) : ℚ) + (moverRun M ⟨0, 0⟩ ops).1.dx = sumAddX ops) ∧
    ((((moverRun M ⟨0, 0⟩ ops).2.2 : ℤ) : ℚ) + (moverRun M ⟨0, 0⟩ ops).1.dy = sumAddY ops) ∧
    (∀ m : MouseMover,
      (m.flush M).2.dx = m.dx - (((m.flush M).1.1 : ℤ) : ℚ) ∧
      (m.flush M).2.dy = m.dy - (((m.flush M).1.2 : ℤ) : ℚ)) := by
  have h := moverRun_conserve M ops ⟨0, 0⟩
  refine ⟨?_, ?_, MouseMover.flush_remainder M⟩
  · have h1 := h.1; simpa using h1
  · have h2 := h.2; simpa using h2

/-- Truncation toward zero of an integer is that integer. -/
lemma truncQ_intCast (n : ℤ) : truncQ ((n : ℤ) : ℚ) = n := by
  unfold truncQ
  split <;> simp

/-- C10: the per-tick clamp never destroys motion.  With a non-negative
configured `max_move_px`, each injected integer delta has magnitude at most
`max_move_px`; the new stored remainder is always the old one minus the
injected part; and when the stored remainder exceeds `max_move_px` in either
direction, exactly `±max_move_px` is injected and the excess stays in the
stored remainder for later ticks. -/
theorem c10_flush_clamp (M : ℤ) (v : ℚ) (h : 0 ≤ M) :
    |(flushAxis M v).1| ≤ M ∧
    (flushAxis M v).2 = v - (((flushAxis M v).1 : ℤ) : ℚ) ∧
    ((M : ℚ) < v → (flushAxis M v).1 = M ∧ (flushAxis M v).2 = v - (M : ℚ)) ∧
    (v < -(M : ℚ) → (flushAxis M v).1 = -M ∧ (flushAxis M v).2 = v + (M : ℚ)) := by
  have hMQ : (0 : ℚ) ≤ (M : ℚ) := by exact_mod_cast h
  have hlo : -(M : ℚ) ≤ clampQ (-(M : ℚ)) (M : ℚ) v := le_max_left _ _
  have hhi : clampQ (-(M : ℚ)) (M : ℚ) v ≤ (M : ℚ) :=
    max_le (by linarith) (min_le_left _ _)
  refine ⟨?_, rfl, ?_, ?_⟩
  · show |truncQ (clampQ (-(M : ℚ)) (M : ℚ) v)| ≤ M
    set c := clampQ (-(M : ℚ)) (M : ℚ) v with hc
    by_cases h0 : 0 ≤ c
    · rw [truncQ, if_pos h0, abs_of_nonneg (Int.floor_nonneg.mpr h0)]
      calc ⌊c⌋ ≤ ⌊(M : ℚ)⌋ := Int.floor_le_floor hhi
        _ = M := Int.floor_intCast M
    · push_neg at h0
      rw [truncQ, if_neg (not_le.mpr h0)]
      have h1 : ⌈c⌉ ≤ 0 := Int.ceil_le.mpr (by push_cast; linarith)
      rw [abs_of_nonpos h1]
      have h2 : (-M : ℤ) ≤ ⌈c⌉ := by
        have hcast : (((-M : ℤ) : ℤ) : ℚ) ≤ c := by push_cast; linarith
        calc (-M : ℤ) = ⌈(((-M : ℤ) : ℤ) : ℚ)⌉ := (Int.ceil_intCast _).symm
          _ ≤ ⌈c⌉ := Int.ceil_le_ceil hcast
      linarith
  · intro hv
    have hcl : clampQ (-(M : ℚ)) (M : ℚ) v = (M : ℚ) := by
      unfold clampQ
      rw [min_eq_left hv.le, max_eq_right (by linarith)]
    have h1 : (flushAxis M v).1 = M := by
      show truncQ (clampQ (-(M : ℚ)) (M : ℚ) v) = M
      rw [hcl]
      exact truncQ_intCast M
    refine ⟨h1, ?_⟩
    show v - (((flushAxis M v).1 : ℤ) : ℚ) = v - (M : ℚ)
    rw [h1]
  · intro hv
    have hvM : v ≤ (M : ℚ) := by linarith
    have hcl : clampQ (-(M : ℚ)) (M : ℚ) v = -(M : ℚ) := by
      unfold clampQ
      rw [min_eq_right hvM, max_eq_left hv.le]
    have h1 : (flushAxis M v).1 = -M := by
      show truncQ (clampQ (-(M : ℚ)) (M : ℚ) v) = -M
      rw [hcl, show (-(M : ℚ)) = (((-M : ℤ) : ℤ) : ℚ) by push_cast; ring]
      exact truncQ_intCast (-M)
    refine ⟨h1, ?_⟩
    show v - (((flushAxis M v).1 : ℤ) : ℚ) = v + (M : ℚ)
    rw [h1]
    push_cast
    ring

/-- Witness for C10 at `max_move_px = 200` and a stored remainder of 500.5:
the clamp hypothesis holds and the tick injects exactly 200, keeping the
excess 300.5 in the remainder. -/
theorem c10_flush_clamp_witness :
    (0 : ℤ) ≤ 200 ∧
    (|(flushAxis 200 (1001 / 2)).1| ≤ 200 ∧
     (flushAxis 200 (1001 / 2)).2 = 1001 / 2 - (((flushAxis 200 (1001 / 2)).1 : ℤ) : ℚ) ∧
     (((200 : ℤ) : ℚ) < 1001 / 2 →
       (flushAxis 200 (1001 / 2)).1 = 200 ∧
       (flushAxis 200 (1001 / 2)).2 = 1001 / 2 - ((200 : ℤ) : ℚ)) ∧
     (1001 / 2 < -((200 : ℤ) : ℚ) →
       (flushAxis 200 (1001 / 2)).1 = -200 ∧
       (flushAxis 200 (1001 / 2)).2 = 1001 / 2 + ((200 : ℤ) : ℚ))) :=
  ⟨by decide, c10_flush_clamp 200 (1001 / 2) (by decide)⟩

/-- Looking up an id in a pending table from which that id was popped
finds nothing. -/
lemma lookup_popPending (reqId : String) (l : List (String × Option RpcResultMsg)) :
    (popPending reqId l).lookup reqId = none := by
  induction l with
  | nil => rfl
  | cons hd tl ih =>
      obtain ⟨k, v⟩ := hd
      by_cases h : k = reqId
      · subst h
        simpa [popPending, List.filter_cons] using ih
      · have hne : (k != reqId) = true := by simp [bne, h]
        have hne' : (reqId == k) = false := by
          simp [beq_iff_eq]
          exact fun hh => h hh.symm
        simp [popPending, List.filter_cons, hne, List.lookup, hne'] at ih ⊢
        simpa [popPending] using ih

/-- C3: an rpc call that times out waiting for its result returns
`{ok: false, error: "timeout"}`, leaves no pending entry for its id, and a
result for that id arriving after the timeout is a no-op: the incoming
handler finds no pending entry and returns the state unchanged. -/
theorem c3_rpc_timeout (c : RelayClient) (method : String) (ok : Bool)
    (err : Option String) (res : Option StatusSnapshot) (h : c.connected = true) :
    ((c.rpc method RpcOutcome.timeout).1 = ⟨false, some "timeout", none⟩) ∧
    ((c.rpc method RpcOutcome.timeout).2.pending.lookup (toString c.nextId) = none) ∧
    ((c.rpc method RpcOutcome.timeout).2.handleIncoming
        (HostMsg.rpcResult ⟨toString c.nextId, ok, err, res⟩) =
      (c.rpc method RpcOutcome.timeout).2) := by
  have hstate : (c.rpc method RpcOutcome.timeout).2 =
      { c with nextId := c.nextId + 1,
               pending := popPending (toString c.nextId)
                 ((toString c.nextId, none) :: c.pending) } := by
    simp [RelayClient.rpc, h]
  refine ⟨by simp [RelayClient.rpc, h], ?_, ?_⟩
  · rw [hstate]
    exact lookup_popPending _ _
  · rw [hstate]
    simp [RelayClient.handleIncoming, lookup_popPending]

/-- Witness for C3: a connected client with an empty pending table; the
timed-out call for id "1" yields the timeout error, no pending entry, and
a late result for "1" changes nothing. -/
theorem c3_rpc_timeout_witness :
    clientConnected.connected = true ∧
    (((clientConnected.rpc "select_foreground_window" RpcOutcome.timeout).1 =
        ⟨false, some "timeout", none⟩) ∧
     ((clientConnected.rpc "select_foreground_window" RpcOutcome.timeout).2.pending.lookup
        (toString clientConnected.nextId) = none) ∧
     ((clientConnected.rpc "select_foreground_window" RpcOutcome.timeout).2.handleIncoming
         (HostMsg.rpcResult ⟨toString clientConnected.nextId, true, none, none⟩) =
       (clientConnected.rpc "select_foreground_window" RpcOutcome.timeout).2)) :=
  ⟨rfl, c3_rpc_timeout clientConnected "select_foreground_window" true none none rfl⟩

/-- C4: an rpc call issued while disconnected returns
`{ok: false, error: "host_not_connected"}` immediately and leaves the whole
client state — in particular the pending-request table — unchanged. -/
theorem c4_rpc_not_connected (c : RelayClient) (method : String)
    (outcome : RpcOutcome) (h : c.connected = false) :
    c.rpc method outcome = (⟨false, some "host_not_connected", none⟩, c) := by
  simp [RelayClient.rpc, h]

/-- Witness for C4: a disconnected client with one pre-existing pending
entry; the call returns the error and the state (pending table included)
is untouched. -/
theorem c4_rpc_not_connected_witness :
    clientDown.connected = false ∧
    clientDown.rpc "pad_reset" (RpcOutcome.arrived true none none) =
      (⟨false, some "host_not_connected", none⟩, clientDown) :=
  ⟨rfl, c4_rpc_not_connected clientDown "pad_reset" (RpcOutcome.arrived true none none) rfl⟩

/-- C5: while the session is disarmed, an incoming `input` frame is read
and discarded: the host state (device state included) is unchanged, no
action is injected, and nothing is written back. -/
theorem c5_disarmed_input_dropped (cfg : Cfg) (s : HostState) (e : InputEvent)
    (h : s.armed = false) :
    handleFrame cfg s (Frame.input e) = (s, [], []) := by
  simp [handleFrame, h]

/-- Witness for C5: a freshly accepted session (disarmed) drops a `move`
input frame without any effect. -/
theorem c5_disarmed_input_dropped_witness :
    hostBoot.armed = false ∧
    handleFrame cfgT hostBoot (Frame.input (InputEvent.move 3 4)) = (hostBoot, [], []) :=
  ⟨rfl, c5_disarmed_input_dropped cfgT hostBoot (InputEvent.move 3 4) rfl⟩

/-- `release_all` unconditionally clears every toggle, latch, flag and the
stored camera axes of the mapper. -/
lemma releaseAll_clears (cfg : Cfg) (k : KbmMapper) :
    (k.releaseAll cfg).1.w = false ∧ (k.releaseAll cfg).1.a = false ∧
    (k.releaseAll cfg).1.s = false ∧ (k.releaseAll cfg).1.d = false ∧
    (k.releaseAll cfg).1.lmb = false ∧ (k.releaseAll cfg).1.rmb = false ∧
    (k.releaseAll cfg).1.rmbTrigger = false ∧ (k.releaseAll cfg).1.cameraActive = false ∧
    (k.releaseAll cfg).1.shift = false ∧ (k.releaseAll cfg).1.ctrl = false ∧
    (k.releaseAll cfg).1.rightX = 0 ∧ (k.releaseAll cfg).1.rightY = 0 := by
  cases hm : cfg.hasMouse <;> cases hr : k.rmb <;>
    simp [KbmMapper.releaseAll, KbmMapper.updateRmb, hm, hr]

/-- C2 counterexample: the claim that teardown releases *all* emulated
input "in either input mode" fails in ViGEm mode (mode 0).  In a reachable
session — boot in mode 0 with the pad enabled, arm via a
`client{state: connected}` frame, press virtual button `a` via an `input`
frame — the teardown path disarms, but the virtual controller's `a` button
is still held afterwards. -/
theorem c2_teardown_counterexample :
    (teardown cfgT
        (handleFrame cfgT
          (handleFrame cfgT hostBoot (Frame.client "connected" (some "10.0.0.2"))).1
          (Frame.input (InputEvent.padButton "a" true))).1).1.armed = false ∧
    (teardown cfgT
        (handleFrame cfgT
          (handleFrame cfgT hostBoot (Frame.client "connected" (some "10.0.0.2"))).1
          (Frame.input (InputEvent.padButton "a" true))).1).1.gamepad.buttons =
      [PadButton.a] ∧
    (teardown cfgT
        (handleFrame cfgT
          (handleFrame cfgT hostBoot (Frame.client "connected" (some "10.0.0.2"))).1
          (Frame.input (InputEvent.padButton "a" true))).1).1.gamepad.buttons ≠ [] := by
  decide

/-- C2 (amended): on connection teardown of the relay server session,
including the exception path, the session is unconditionally disarmed and
the keyboard/mouse mapper's state is released (all toggles, latches and
flags cleared, camera axes zeroed, held keys/buttons getting release
calls via `release_all`); the virtual-controller (mode 0) device state is
left unchanged, not released. -/
theorem c2_teardown_disarms_and_releases (cfg : Cfg) (s : HostState) :
    (teardown cfg s).1.armed = false ∧
    (teardown cfg s).1.currentClient = none ∧
    (teardown cfg s).1.kbm = (s.kbm.releaseAll cfg).1 ∧
    (teardown cfg s).2 = (s.kbm.releaseAll cfg).2 ∧
    ((teardown cfg s).1.kbm.w = false ∧ (teardown cfg s).1.kbm.a = false ∧
     (teardown cfg s).1.kbm.s = false ∧ (teardown cfg s).1.kbm.d = false ∧
     (teardown cfg s).1.kbm.lmb = false ∧ (teardown cfg s).1.kbm.rmb = false ∧
     (teardown cfg s).1.kbm.rmbTrigger = false ∧
     (teardown cfg s).1.kbm.cameraActive = false ∧
     (teardown cfg s).1.kbm.rightX = 0 ∧ (teardown cfg s).1.kbm.rightY = 0) ∧
    (teardown cfg s).1.gamepad = s.gamepad := by
  have h := releaseAll_clears cfg s.kbm
  refine ⟨rfl, rfl, rfl, rfl, ?_, rfl⟩
  exact ⟨h.1, h.2.1, h.2.2.1, h.2.2.2.1, h.2.2.2.2.1, h.2.2.2.2.2.1,
         h.2.2.2.2.2.2.1, h.2.2.2.2.2.2.2.1,
         h.2.2.2.2.2.2.2.2.2.2.1, h.2.2.2.2.2.2.2.2.2.2.2⟩

/-- C6 (code bug): pressing a shoulder button presses the Shift modifier
but `set_button` never records it in the mapper's `shift` tracker, so the
following `release_all` issues no release at all — Shift stays physically
held even though the spec requires every held modifier to be released. -/
theorem c6_modifier_never_released :
    ((KbmMapper.init.setButton cfgT "lb" true).2 = [Action.keyPress Key.shift]) ∧
    ((KbmMapper.init.setButton cfgT "lb" true).1 = KbmMapper.init) ∧
    (((KbmMapper.init.setButton cfgT "lb" true).1.releaseAll cfgT).2 = []) ∧
    (Action.keyRelease Key.shift ∉
      ((KbmMapper.init.setButton cfgT "lb" true).1.releaseAll cfgT).2) := by
  decide

/-- The new toggle value produced by `flip` is exactly the `want` signal. -/
lemma flip_fst (cfg : Cfg) (st want : Bool) (key : Key) :
    (flip cfg st want key).1 = want := by
  cases st <;> cases want <;> simp [flip]

/-- Flipping a toggle that already equals its `want` signal is a no-op. -/
lemma flip_self (cfg : Cfg) (want : Bool) (key : Key) :
    flip cfg want want key = (want, []) := by
  cases want <;> simp [flip]

/-- A press for key `kq` is emitted by `flip` exactly on a 0→1 transition
of that key (and only with a keyboard backend). -/
lemma flip_press_mem (cfg : Cfg) (st want : Bool) (key kq : Key) :
    Action.keyPress kq ∈ (flip cfg st want key).2 ↔
      (cfg.hasKeyboard = true ∧ st = false ∧ want = true ∧ kq = key) := by
  cases st <;> cases want <;> cases hkb : cfg.hasKeyboard <;>
    simp [flip, kbPress, kbRelease, hkb]

/-- A release for key `kq` is emitted by `flip` exactly on a 1→0
transition of that key. -/
lemma flip_release_mem (cfg : Cfg) (st want : Bool) (key kq : Key) :
    Action.keyRelease kq ∈ (flip cfg st want key).2 ↔
      (cfg.hasKeyboard = true ∧ st = true ∧ want = false ∧ kq = key) := by
  cases st <;> cases want <;> cases hkb : cfg.hasKeyboard <;>
    simp [flip, kbPress, kbRelease, hkb]

/-- C7: for every `pad_left` sample, the four movement toggles become a
pure function of the latest axes through the deadzone (|v| < 0.18 → 0)
and threshold (|v| > 0.35) rule; a press is emitted exactly on a 0→1
transition of the corresponding toggle and a release exactly on a 1→0
transition; and processing the same sample twice in a row emits nothing
the second time. -/
theorem c7_left_stick_edge_triggered (cfg : Cfg) (k : KbmMapper) (x y : ℚ) :
    ((k.setLeftStick cfg x y).1.w = decide (deadzoned y > 35 / 100) ∧
     (k.setLeftStick cfg x y).1.s = decide (deadzoned y < -(35 / 100)) ∧
     (k.setLeftStick cfg x y).1.d = decide (deadzoned x > 35 / 100) ∧
     (k.setLeftStick cfg x y).1.a = decide (deadzoned x < -(35 / 100))) ∧
    (((k.setLeftStick cfg x y).1.setLeftStick cfg x y).2 = []) ∧
    ((Action.keyPress (Key.char 'w') ∈ (k.setLeftStick cfg x y).2 ↔
        (cfg.hasKeyboard = true ∧ k.w = false ∧ decide (deadzoned y > 35 / 100) = true)) ∧
     (Action.keyRelease (Key.char 'w') ∈ (k.setLeftStick cfg x y).2 ↔
        (cfg.hasKeyboard = true ∧ k.w = true ∧ decide (deadzoned y > 35 / 100) = false))) ∧
    ((Action.keyPress (Key.char 's') ∈ (k.setLeftStick cfg x y).2 ↔
        (cfg.hasKeyboard = true ∧ k.s = false ∧ decide (deadzoned y < -(35 / 100)) = true)) ∧
     (Action.keyRelease (Key.char 's') ∈ (k.setLeftStick cfg x y).2 ↔
        (cfg.hasKeyboard = true ∧ k.s = true ∧ decide (deadzoned y < -(35 / 100)) = false))) ∧
    ((Action.keyPress (Key.char 'd') ∈ (k.setLeftStick cfg x y).2 ↔
        (cfg.hasKeyboard = true ∧ k.d = false ∧ decide (deadzoned x > 35 / 100) = true)) ∧
     (Action.keyRelease (Key.char 'd') ∈ (k.setLeftStick cfg x y).2 ↔
        (cfg.hasKeyboard = true ∧ k.d = true ∧ decide (deadzoned x > 35 / 100) = false))) ∧
    ((Action.keyPress (Key.char 'a') ∈ (k.setLeftStick cfg x y).2 ↔
        (cfg.hasKeyboard = true ∧ k.a = false ∧ decide (deadzoned x < -(35 / 100)) = true)) ∧
     (Action.keyRelease (Key.char 'a') ∈ (k.setLeftStick cfg x y).2 ↔
        (cfg.hasKeyboard = true ∧ k.a = true ∧ decide (deadzoned x < -(35 / 100)) = false))) := by
  refine ⟨?_, ?_, ?_, ?_, ?_, ?_⟩
  · simp [KbmMapper.setLeftStick, flip_fst]
  · simp [KbmMapper.setLeftStick, flip_fst, flip_self]
  · constructor <;>
      simp [KbmMapper.setLeftStick, List.mem_append, flip_press_mem, flip_release_mem]
  · constructor <;>
      simp [KbmMapper.setLeftStick, List.mem_append, flip_press_mem, flip_release_mem]
  · constructor <;>
      simp [KbmMapper.setLeftStick, List.mem_append, flip_press_mem, flip_release_mem]
  · constructor <;>
      simp [KbmMapper.setLeftStick, List.mem_append, flip_press_mem, flip_release_mem]

/-- After `_update_rmb` (with a mouse backend) the right button toggle
equals the composite `rmb_trigger or (camera_active and camera_drag)`. -/
lemma updateRmb_rmb (cfg : Cfg) (k : KbmMapper) (h : cfg.hasMouse = true) :
    (k.updateRmb cfg).1.rmb = (k.rmbTrigger || (k.cameraActive && k.cameraDrag)) := by
  cases ht : k.rmbTrigger <;> cases hca : k.cameraActive <;>
    cases hcd : k.cameraDrag <;> cases hr : k.rmb <;>
      simp [KbmMapper.updateRmb, h, ht, hca, hcd, hr]

/-- `_update_rmb` presses the right button exactly on a 0→1 transition of
the composite. -/
lemma updateRmb_down_mem (cfg : Cfg) (k : KbmMapper) (h : cfg.hasMouse = true) :
    Action.mouseDown MButton.right ∈ (k.updateRmb cfg).2 ↔
      ((k.rmbTrigger || (k.cameraActive && k.cameraDrag)) = true ∧ k.rmb = false) := by
  cases ht : k.rmbTrigger <;> cases hca : k.cameraActive <;>
    cases hcd : k.cameraDrag <;> cases hr : k.rmb <;>
      simp [KbmMapper.updateRmb, h, ht, hca, hcd, hr]

/-- `_update_rmb` releases the right button exactly on a 1→0 transition of
the composite. -/
lemma updateRmb_up_mem (cfg : Cfg) (k : KbmMapper) (h : cfg.hasMouse = true) :
    Action.mouseUp MButton.right ∈ (k.updateRmb cfg).2 ↔
      ((k.rmbTrigger || (k.cameraActive && k.cameraDrag)) = false ∧ k.rmb = true) := by
  cases ht : k.rmbTrigger <;> cases hca : k.cameraActive <;>
    cases hcd : k.cameraDrag <;> cases hr : k.rmb <;>
      simp [KbmMapper.updateRmb, h, ht, hca, hcd, hr]

/-- C8 counterexample: the claim that the right-mouse-button composite is
held whenever "the drag-flag set by kbm_cam_hold is true" fails when the
`set_kbm_camera_drag` enable is off.  Starting from the initial mapper with
a mouse backend available, `kbm_cam_hold{down: true}` (i.e.
`set_camera_active(True)`) sets the camera flag with the latch false, yet
the right button is not held and no press is emitted, because the code
requires `camera_active AND camera_drag`. -/
theorem c8_rmb_counterexample :
    (KbmMapper.init.setCameraActive cfgT true).1.cameraActive = true ∧
    (KbmMapper.init.setCameraActive cfgT true).1.rmbTrigger = false ∧
    (KbmMapper.init.setCameraActive cfgT true).1.rmb = false ∧
    (KbmMapper.init.setCameraActive cfgT true).2 = [] := by
  decide

/-- C8 (amended): with a mouse backend, the right-mouse-button composite
is held exactly when the left-trigger latch (`pad_trigger "lt" > 0.5`) is
true or both the `kbm_cam_hold` camera flag and the `set_kbm_camera_drag`
drag enable are true; presses/releases are edge-triggered on the
composite's value, not on either input alone; and the right trigger
(`"rt" > 0.5`) maps to the left mouse button, edge-triggered. -/
theorem c8_rmb_composite (cfg : Cfg) (k : KbmMapper) (v : ℚ) (b : Bool)
    (h : cfg.hasMouse = true) :
    ((k.setCameraActive cfg b).1.rmb = (k.rmbTrigger || (b && k.cameraDrag))) ∧
    (Action.mouseDown MButton.right ∈ (k.setCameraActive cfg b).2 ↔
      ((k.rmbTrigger || (b && k.cameraDrag)) = true ∧ k.rmb = false)) ∧
    (Action.mouseUp MButton.right ∈ (k.setCameraActive cfg b).2 ↔
      ((k.rmbTrigger || (b && k.cameraDrag)) = false ∧ k.rmb = true)) ∧
    ((k.setTrigger cfg "lt" v).1.rmb =
      (decide (v > 1 / 2) || (k.cameraActive && k.cameraDrag))) ∧
    (Action.mouseDown MButton.right ∈ (k.setTrigger cfg "lt" v).2 ↔
      ((decide (v > 1 / 2) || (k.cameraActive && k.cameraDrag)) = true ∧ k.rmb = false)) ∧
    (Action.mouseUp MButton.right ∈ (k.setTrigger cfg "lt" v).2 ↔
      ((decide (v > 1 / 2) || (k.cameraActive && k.cameraDrag)) = false ∧ k.rmb = true)) ∧
    ((k.setTrigger cfg "rt" v).1.lmb = decide (v > 1 / 2)) ∧
    (Action.mouseDown MButton.left ∈ (k.setTrigger cfg "rt" v).2 ↔
      (decide (v > 1 / 2) = true ∧ k.lmb = false)) ∧
    (Action.mouseUp MButton.left ∈ (k.setTrigger cfg "rt" v).2 ↔
      (decide (v > 1 / 2) = false ∧ k.lmb = true)) := by
  refine ⟨?_, ?_, ?_, ?_, ?_, ?_, ?_, ?_, ?_⟩
  · simpa [KbmMapper.setCameraActive] using
      updateRmb_rmb cfg { k with cameraActive := b } h
  · simpa [KbmMapper.setCameraActive] using
      updateRmb_down_mem cfg { k with cameraActive := b } h
  · simpa [KbmMapper.setCameraActive] using
      updateRmb_up_mem cfg { k with cameraActive := b } h
  · have := updateRmb_rmb cfg { k with rmbTrigger := decide (v > 1 / 2) } h
    simpa [KbmMapper.setTrigger, h] using this
  · have := updateRmb_down_mem cfg { k with rmbTrigger := decide (v > 1 / 2) } h
    simpa [KbmMapper.setTrigger, h] using this
  · have := updateRmb_up_mem cfg { k with rmbTrigger := decide (v > 1 / 2) } h
    simpa [KbmMapper.setTrigger, h] using this
  · simp only [KbmMapper.setTrigger, h]
    cases hd : decide (v > 1 / 2) <;> cases hl : k.lmb <;> simp [hl]
  · simp only [KbmMapper.setTrigger, h]
    cases hd : decide (v > 1 / 2) <;> cases hl : k.lmb <;> simp [hl]
  · simp only [KbmMapper.setTrigger, h]
    cases hd : decide (v > 1 / 2) <;> cases hl : k.lmb <;> simp [hl]

/-- Witness for C8 (amended) at a concrete input: mouse available, initial
mapper, trigger value 1, camera flag true. -/
theorem c8_rmb_composite_witness :
    cfgT.hasMouse = true ∧
    (((KbmMapper.init.setCameraActive cfgT true).1.rmb =
        (KbmMapper.init.rmbTrigger || (true && KbmMapper.init.cameraDrag))) ∧
     (Action.mouseDown MButton.right ∈ (KbmMapper.init.setCameraActive cfgT true).2 ↔
       ((KbmMapper.init.rmbTrigger || (true && KbmMapper.init.cameraDrag)) = true ∧
        KbmMapper.init.rmb = false)) ∧
     (Action.mouseUp MButton.right ∈ (KbmMapper.init.setCameraActive cfgT true).2 ↔
       ((KbmMapper.init.rmbTrigger || (true && KbmMapper.init.cameraDrag)) = false ∧
        KbmMapper.init.rmb = true)) ∧
     ((KbmMapper.init.setTrigger cfgT "lt" 1).1.rmb =
       (decide ((1 : ℚ) > 1 / 2) || (KbmMapper.init.cameraActive && KbmMapper.init.cameraDrag))) ∧
     (Action.mouseDown MButton.right ∈ (KbmMapper.init.setTrigger cfgT "lt" 1).2 ↔
       ((decide ((1 : ℚ) > 1 / 2) ||
          (KbmMapper.init.cameraActive && KbmMapper.init.cameraDrag)) = true ∧
        KbmMapper.init.rmb = false)) ∧
     (Action.mouseUp MButton.right ∈ (KbmMapper.init.setTrigger cfgT "lt" 1).2 ↔
       ((decide ((1 : ℚ) > 1 / 2) ||
          (KbmMapper.init.cameraActive && KbmMapper.init.cameraDrag)) = false ∧
        KbmMapper.init.rmb = true)) ∧
     ((KbmMapper.init.setTrigger cfgT "rt" 1).1.lmb = decide ((1 : ℚ) > 1 / 2)) ∧
     (Action.mouseDown MButton.left ∈ (KbmMapper.init.setTrigger cfgT "rt" 1).2 ↔
       (decide ((1 : ℚ) > 1 / 2) = true ∧ KbmMapper.init.lmb = false)) ∧
     (Action.mouseUp MButton.left ∈ (KbmMapper.init.setTrigger cfgT "rt" 1).2 ↔
       (decide ((1 : ℚ) > 1 / 2) = false ∧ KbmMapper.init.lmb = true))) :=
  ⟨rfl, c8_rmb_composite cfgT KbmMapper.init 1 true rfl⟩

/-- C9 counterexample: the claim that mode arguments at most 0 are clamped
to 0 fails: `set_input_mode` with mode −1 on a host in mode 0 stores mode 1
(the code maps every non-zero integer to 1, not a clamp). -/
theorem c9_clamp_counterexample :
    ((-1 : ℤ) ≤ 0) ∧
    (handleRpc cfgT hostBoot "set_input_mode" ⟨-1, false⟩).1.inputMode = 1 ∧
    (handleRpc cfgT hostBoot "set_input_mode" ⟨-1, false⟩).1.inputMode ≠ 0 := by
  decide

/-- C9 (amended): `set_input_mode` normalises its mode argument by mapping
0 to 0 and every other integer (including negatives) to 1, so the stored
mode is always in {0,1}; the reply is always the status snapshot of the
resulting state (hence ok: true); and a call whose normalised mode equals
the current mode changes no state. -/
theorem c9_set_input_mode_normalised (cfg : Cfg) (s : HostState) (m : ℤ) :
    ((handleRpc cfg s "set_input_mode" ⟨m, false⟩).1.inputMode =
      if m = 0 then 0 else 1) ∧
    ((handleRpc cfg s "set_input_mode" ⟨m, false⟩).1.inputMode = 0 ∨
     (handleRpc cfg s "set_input_mode" ⟨m, false⟩).1.inputMode = 1) ∧
    ((handleRpc cfg s "set_input_mode" ⟨m, false⟩).2.2 =
      RpcReply.snap (statusSnapshot cfg (handleRpc cfg s "set_input_mode" ⟨m, false⟩).1)) ∧
    (replyOk (handleRpc cfg s "set_input_mode" ⟨m, false⟩).2.2 = true) ∧
    (s.inputMode = (if m = 0 then (0 : Nat) else 1) →
      handleRpc cfg s "set_input_mode" ⟨m, false⟩ =
        (s, [], RpcReply.snap (statusSnapshot cfg s))) := by
  by_cases h0 : m = 0
  · subst h0
    by_cases h1 : s.inputMode = 0
    · simp [handleRpc, replyOk, h1]
    · have h1' : ¬((0 : Nat) = s.inputMode) := fun hh => h1 hh.symm
      by_cases hge : s.gamepadEnabled <;>
        simp [handleRpc, replyOk, h1, h1', hge]
  · by_cases h1 : s.inputMode = 1
    · simp [handleRpc, replyOk, h0, h1]
    · have h1' : ¬((1 : Nat) = s.inputMode) := fun hh => h1 hh.symm
      simp [handleRpc, replyOk, h0, h1, h1']

/-- Witness for C9 (amended): repeating `set_input_mode{mode: 1}` on a host
already in mode 1 is a no-op returning the ok status snapshot. -/
theorem c9_set_input_mode_normalised_witness :
    hostBootKbm.inputMode = (if (1 : ℤ) = 0 then (0 : Nat) else 1) ∧
    (((handleRpc cfgT hostBootKbm "set_input_mode" ⟨1, false⟩).1.inputMode =
        if (1 : ℤ) = 0 then 0 else 1) ∧
     ((handleRpc cfgT hostBootKbm "set_input_mode" ⟨1, false⟩).1.inputMode = 0 ∨
      (handleRpc cfgT hostBootKbm "set_input_mode" ⟨1, false⟩).1.inputMode = 1) ∧
     ((handleRpc cfgT hostBootKbm "set_input_mode" ⟨1, false⟩).2.2 =
       RpcReply.snap
         (statusSnapshot cfgT (handleRpc cfgT hostBootKbm "set_input_mode" ⟨1, false⟩).1)) ∧
     (replyOk (handleRpc cfgT hostBootKbm "set_input_mode" ⟨1, false⟩).2.2 = true) ∧
     (hostBootKbm.inputMode = (if (1 : ℤ) = 0 then (0 : Nat) else 1) →
       handleRpc cfgT hostBootKbm "set_input_mode" ⟨1, false⟩ =
         (hostBootKbm, [], RpcReply.snap (statusSnapshot cfgT hostBootKbm)))) :=
  ⟨by decide, c9_set_input_mode_normalised cfgT hostBootKbm 1⟩

end ViGemRelay
